import Mathlib

/-!
Shallow embedding of the voyage history / replay subsystem of the
maritime-vessel-tracking backend (core/services/voyage_history.py and the
relevant parts of core/models.py).

Conventions of the embedding:
* Timestamps are rational numbers of seconds (datetime arithmetic in the
  source is exact arithmetic on time deltas; `isoformat` string rendering is
  presentation only and is elided).
* Python floats are modelled as rationals where the source only does field
  arithmetic, and as reals where transcendental functions occur
  (the haversine distance).
* Python `int()` truncation, `%` on floats, `round(x, 2)` and truthiness
  (`if value:` treating `None` and `0` alike as false) are modelled
  explicitly by `pyInt`, `fmodQ`, `roundQ2`/`roundR2` and pattern matches.
* The relational store is a `StoreState`; Django querysets with
  `order_by('timestamp')` become a stable sort by timestamp
  (`List.insertionSort` is stable), and `.first()` under the `Voyage`
  model's default ordering `['-departure_time']` becomes the head of a
  stable sort descending by departure time.
-/

/-- Python `int()` applied to a rational: truncation toward zero. -/
def pyInt (q : ℚ) : ℤ := if q < 0 then ⌈q⌉ else ⌊q⌋

/-- Python float `%` with a positive modulus: result in `[0, n)` (sign of divisor). -/
def fmodQ (x n : ℚ) : ℚ := x - n * ⌊x / n⌋

/-- Python `round(q, 2)` on exact rational data (half-to-even and half-up agree
off exact half-hundredths, which is where all our uses live). -/
def roundQ2 (q : ℚ) : ℚ := (round (q * 100) : ℤ) / 100

/-- Python `round(x, 2)` for real-valued quantities (haversine distances). -/
noncomputable def roundR2 (x : ℝ) : ℝ := ((round (x * 100) : ℤ) : ℝ) / 100

/-- Vessel row: identity plus the cached last-known position fields updated by
`record_position` (models.Vessel lines 49-71). -/
structure Vessel where
  id : ℕ
  last_position_lat : Option ℚ
  last_position_lon : Option ℚ
  speed : Option ℚ
  heading : Option ℤ
  last_update : Option ℚ
deriving DecidableEq

/-- Voyage row (models.Voyage): status is one of PLANNED, IN_PROGRESS,
COMPLETED, CANCELLED; default queryset ordering is `['-departure_time']`. -/
structure Voyage where
  id : ℕ
  vesselId : ℕ
  status : String
  departure_time : ℚ
  arrival_time : Option ℚ
deriving DecidableEq

/-- VesselPosition row (models.VesselPosition lines 340-412); unique on
(vessel, timestamp). -/
structure VesselPosition where
  id : ℕ
  vesselId : ℕ
  voyageId : Option ℕ
  latitude : ℚ
  longitude : ℚ
  speed : Option ℚ
  heading : Option ℤ
  timestamp : ℚ
  source : String
  accuracy : Option ℚ
  is_interpolated : Bool
deriving DecidableEq

/-- VoyageAuditLog row, restricted to the fields the claims inspect
(action tag plus vessel/voyage references); `log_action` appends one row. -/
structure AuditEntry where
  vesselId : Option ℕ
  voyageId : Option ℕ
  action : String
  description : String
deriving DecidableEq

/-- The relational store backing the service. -/
structure StoreState where
  vessels : List Vessel
  voyages : List Voyage
  positions : List VesselPosition
  audit_log : List AuditEntry
  next_position_id : ℕ
deriving DecidableEq

/-- Haversine great-circle distance in nautical miles
(models.VesselPosition.distance_to lines 422-444): earth radius 3440.065 nm. -/
noncomputable def haversine_nm (lat1 lon1 lat2 lon2 : ℚ) : ℝ :=
  let p1 : ℝ := (lat1 : ℝ) * Real.pi / 180
  let q1 : ℝ := (lon1 : ℝ) * Real.pi / 180
  let p2 : ℝ := (lat2 : ℝ) * Real.pi / 180
  let q2 : ℝ := (lon2 : ℝ) * Real.pi / 180
  let dlat := p2 - p1
  let dlon := q2 - q1
  let a := Real.sin (dlat / 2) ^ 2 +
    Real.cos p1 * Real.cos p2 * Real.sin (dlon / 2) ^ 2
  2 * Real.arcsin (Real.sqrt a) * 3440.065

/-- `self.distance_to(other)` on position rows. -/
noncomputable def VesselPosition.distance_to (self other : VesselPosition) : ℝ :=
  haversine_nm self.latitude self.longitude other.latitude other.longitude

/-- Ascending stable sort by timestamp: the embedding of
`.order_by('timestamp')`. -/
def sortByTimestamp (l : List VesselPosition) : List VesselPosition :=
  l.insertionSort (fun a b => a.timestamp ≤ b.timestamp)

/-- All stored positions of a voyage (interpolated rows included), the
embedding of `VesselPosition.objects.filter(voyage=voyage)`. -/
def voyage_positions (s : StoreState) (voyageId : ℕ) : List VesselPosition :=
  s.positions.filter (fun p => p.voyageId == some voyageId)

/-- `.first()` on a Voyage queryset: head of the stable sort by the model's
default ordering `['-departure_time']`. -/
def firstByDepartureDesc (l : List Voyage) : Option Voyage :=
  (l.insertionSort (fun a b => b.departure_time ≤ a.departure_time)).head?

/-- Filter for an IN_PROGRESS voyage of the vessel containing the timestamp
(service lines 136-142). -/
def voyageMatchesActive (vesselId : ℕ) (ts : ℚ) (v : Voyage) : Bool :=
  v.vesselId == vesselId && v.status == "IN_PROGRESS" &&
    decide (v.departure_time ≤ ts) &&
    (match v.arrival_time with
     | none => true
     | some a => decide (ts ≤ a))

/-- Filter for a PLANNED voyage of the vessel whose departure is within the
2-hour grace window (service lines 146-150). -/
def voyageMatchesPlanned (vesselId : ℕ) (ts : ℚ) (v : Voyage) : Bool :=
  v.vesselId == vesselId && v.status == "PLANNED" &&
    decide (v.departure_time ≤ ts + 7200)

/-- `VoyageHistoryService._find_active_voyage` (service lines 124-168): finds
an in-progress voyage containing the timestamp, otherwise auto-starts an
eligible planned voyage (status write plus a VOYAGE_UPDATED audit entry). -/
def find_active_voyage (s : StoreState) (vesselId : ℕ) (ts : ℚ) :
    Option ℕ × StoreState :=
  match firstByDepartureDesc (s.voyages.filter (voyageMatchesActive vesselId ts)) with
  | some v => (some v.id, s)
  | none =>
    match firstByDepartureDesc (s.voyages.filter (voyageMatchesPlanned vesselId ts)) with
    | some p =>
      (some p.id,
        { s with
          voyages := s.voyages.map
            (fun v => if v.id = p.id then { v with status := "IN_PROGRESS" } else v)
          audit_log := s.audit_log ++
            [⟨some vesselId, some p.id, "VOYAGE_UPDATED",
              "Voyage automatically started based on position data"⟩] })
    | none => (none, s)

/-- `VoyageHistoryService.record_position` (service lines 36-122): voyage
association first, then the duplicate check on (vessel, timestamp); on the
first write it creates the row, updates the vessel's cached last-known
position fields (speed and heading only when not None), and appends a
POSITION_RECORDED audit entry. -/
def record_position (s : StoreState) (vessel : Vessel)
    (latitude longitude : ℚ) (timestamp : ℚ)
    (speed : Option ℚ) (heading : Option ℤ)
    (source : String) (accuracy : Option ℚ) :
    VesselPosition × StoreState :=
  let fa := find_active_voyage s vessel.id timestamp
  let s1 := fa.2
  match s1.positions.find? (fun p => p.vesselId == vessel.id && p.timestamp == timestamp) with
  | some existing => (existing, s1)
  | none =>
    let pos : VesselPosition :=
      ⟨s1.next_position_id, vessel.id, fa.1, latitude, longitude,
        speed, heading, timestamp, source, accuracy, false⟩
    (pos,
      { s1 with
        positions := s1.positions ++ [pos]
        vessels := s1.vessels.map (fun w =>
          if w.id = vessel.id then
            { w with
              last_position_lat := some latitude
              last_position_lon := some longitude
              speed := if speed.isSome then speed else w.speed
              heading := if heading.isSome then heading else w.heading
              last_update := some timestamp }
          else w)
        audit_log := s1.audit_log ++
          [⟨some vessel.id, fa.1, "POSITION_RECORDED", "Position recorded"⟩]
        next_position_id := s1.next_position_id + 1 })

/-- One entry of the replay position sequence (the dicts built at service
lines 380-391 and 502-513). -/
structure ReplayPos where
  latitude : ℚ
  longitude : ℚ
  speed : Option ℚ
  heading : Option ℤ
  timestamp : Option ℚ
  time_offset_seconds : ℚ
  replay_time_seconds : ℚ
  distance_from_previous : ℝ
  source : String
  is_interpolated : Bool

/-- Heading difference normalisation used by the interpolator
(service lines 495-499): bring `current - previous` into a ±180 band. -/
def normHeadingDiff (ph ch : ℤ) : ℤ :=
  let d := ch - ph
  if d > 180 then d - 360 else if d < -180 then d + 360 else d

/-- The interpolated heading value before `int()` conversion
(service line 500): `(previous + diff * frac) % 360` on floats. -/
def interp_heading_value (ph ch : ℤ) (frac : ℚ) : ℚ :=
  fmodQ ((ph : ℚ) + (normHeadingDiff ph ch : ℚ) * frac) 360

/-- Interpolated heading of a synthetic point (service lines 492-506):
Python truthiness makes a missing OR zero endpoint heading skip the
computation, and a computed value of exactly 0 is emitted as None. -/
def synth_heading (ph ch : Option ℤ) (frac : ℚ) : Option ℤ :=
  match ph, ch with
  | some p, some c =>
    if p ≠ 0 ∧ c ≠ 0 then
      let ih := interp_heading_value p c frac
      if ih = 0 then none else some (pyInt ih)
    else none
  | _, _ => none

/-- Interpolated speed of a synthetic point (service lines 488-490):
truthiness again treats a 0 endpoint speed like a missing one. -/
def synth_speed (ps cs : Option ℚ) (frac : ℚ) : Option ℚ :=
  match ps, cs with
  | some a, some b =>
    if a ≠ 0 ∧ b ≠ 0 then some (a + (b - a) * frac) else none
  | _, _ => none

/-- One synthetic replay point at fractional position `frac` of the gap
(service lines 479-513). -/
def mk_interpolated (prev cur : ReplayPos) (gap frac : ℚ) : ReplayPos where
  latitude := prev.latitude + (cur.latitude - prev.latitude) * frac
  longitude := prev.longitude + (cur.longitude - prev.longitude) * frac
  speed := synth_speed prev.speed cur.speed frac
  heading := synth_heading prev.heading cur.heading frac
  timestamp := none
  time_offset_seconds := prev.time_offset_seconds + gap * frac
  replay_time_seconds := prev.time_offset_seconds + gap * frac
  distance_from_previous := 0
  source := "INTERPOLATED"
  is_interpolated := true

/-- The synthetic points inserted between one consecutive pair
(service lines 472-513): when the gap exceeds `threshold` minutes,
`N = int(gap / (threshold*60))` points at fractions `j/(N+1)`, `j = 1..N`. -/
def interpolate_segment (threshold : ℚ) (prev cur : ReplayPos) : List ReplayPos :=
  let gap := cur.time_offset_seconds - prev.time_offset_seconds
  if gap > threshold * 60 then
    let num := (pyInt (gap / (threshold * 60))).toNat
    (List.range num).map
      (fun j => mk_interpolated prev cur gap (((j : ℚ) + 1) / ((num : ℚ) + 1)))
  else []

/-- The walk of `_interpolate_replay_positions` over consecutive pairs. -/
def interpolate_walk (threshold : ℚ) : ReplayPos → List ReplayPos → List ReplayPos
  | _, [] => []
  | prev, cur :: rest =>
    interpolate_segment threshold prev cur ++ cur :: interpolate_walk threshold cur rest

/-- `VoyageHistoryService._interpolate_replay_positions`
(service lines 453-517). -/
def interpolate_replay_positions (threshold : ℚ) : List ReplayPos → List ReplayPos
  | [] => []
  | p :: rest => p :: interpolate_walk threshold p rest

/-- Real-position replay entry (service lines 371-393): offsets are relative
to the voyage's departure time, and the replay offset divides by the speed
multiplier. -/
def mk_replay_pos (dep mult : ℚ) (p : VesselPosition) (dist : ℝ) : ReplayPos where
  latitude := p.latitude
  longitude := p.longitude
  speed := p.speed
  heading := p.heading
  timestamp := some p.timestamp
  time_offset_seconds := p.timestamp - dep
  replay_time_seconds := (p.timestamp - dep) / mult
  distance_from_previous := dist
  source := p.source
  is_interpolated := p.is_interpolated

/-- The loop of service lines 368-393, carrying `previous_position` for the
distance_from_previous field (0 for the first point). -/
noncomputable def build_replay_list (dep mult : ℚ) :
    Option VesselPosition → List VesselPosition → List ReplayPos
  | _, [] => []
  | prevOpt, p :: rest =>
    mk_replay_pos dep mult p
        (match prevOpt with
         | none => 0
         | some q => p.distance_to q) ::
      build_replay_list dep mult (some p) rest

/-- Replay metadata dict (service lines 418-424). -/
structure ReplayMetadata where
  total_positions : ℕ
  actual_duration_seconds : ℚ
  replay_duration_seconds : ℚ
  total_distance_nm : ℝ
  average_speed : ℝ

/-- Successful replay payload (service lines 404-427), restricted to the
fields the claims inspect. -/
structure ReplayData where
  voyageId : ℕ
  speed_multiplier : ℚ
  interpolate_gaps : Bool
  metadata : ReplayMetadata
  positions : List ReplayPos

/-- Result of `generate_replay_data`: either the explained empty outcome
`{'voyage_id': ..., 'error': 'No position data available ...'}` of service
lines 361-365 or the replay payload. -/
inductive ReplayResult where
  | err (voyageId : ℕ) (msg : String)
  | ok (data : ReplayData)

/-- Sum of the `distance_from_previous` fields (service line 402). -/
noncomputable def replay_total_distance (l : List ReplayPos) : ℝ :=
  (l.map (fun p => p.distance_from_previous)).sum

/-- `VoyageHistoryService.generate_replay_data` (service lines 327-451):
logs REPLAY_STARTED, errors out when the voyage has no stored positions at
all, otherwise builds the (optionally gap-interpolated) replay sequence;
`actual_duration_seconds` is the LAST entry's offset from the voyage's
departure time and `replay_duration_seconds` divides it by the multiplier. -/
noncomputable def generate_replay_data (s : StoreState) (voyage : Voyage)
    (mult threshold : ℚ) (interpolate_gaps : Bool) :
    ReplayResult × StoreState :=
  let s1 := { s with audit_log := s.audit_log ++
    [⟨some voyage.vesselId, some voyage.id, "REPLAY_STARTED", "Voyage replay started"⟩] }
  let positions := sortByTimestamp (voyage_positions s voyage.id)
  if positions.isEmpty then
    (.err voyage.id "No position data available for this voyage", s1)
  else
    let base := build_replay_list voyage.departure_time mult none positions
    let rp := if interpolate_gaps then interpolate_replay_positions threshold base else base
    let total_duration := (rp.getLast?).elim 0 (fun p => p.time_offset_seconds)
    let replay_duration := total_duration / mult
    let total_distance := replay_total_distance rp
    let md : ReplayMetadata :=
      ⟨rp.length, total_duration, replay_duration, roundR2 total_distance,
        if total_duration > 0 then
          roundR2 (total_distance / ((total_duration : ℝ) / 3600))
        else 0⟩
    (.ok ⟨voyage.id, mult, interpolate_gaps, md, rp⟩,
      { s1 with audit_log := s1.audit_log ++
        [⟨some voyage.vesselId, some voyage.id, "REPLAY_COMPLETED", "Replay data generated"⟩] })

/-- Minimum of a list of rationals, None when empty (SQL `Min` aggregate). -/
def minQ (l : List ℚ) : Option ℚ :=
  l.foldl (fun a x => match a with | none => some x | some m => some (min m x)) none

/-- Maximum of a list of rationals, None when empty (SQL `Max` aggregate). -/
def maxQ (l : List ℚ) : Option ℚ :=
  l.foldl (fun a x => match a with | none => some x | some m => some (max m x)) none

/-- Statistics payload (service lines 560-575), restricted to the
`statistics` sub-dict. -/
structure VoyageStats where
  total_positions : ℕ
  total_distance_nm : ℝ
  duration_hours : ℚ
  average_speed_knots : ℚ
  max_speed_knots : ℚ
  min_speed_knots : ℚ
  first_position_time : Option ℚ
  last_position_time : Option ℚ

/-- Total haversine distance over consecutive pairs of a (sorted) position
list (service lines 546-551): `positions_list[i].distance_to(positions_list[i-1])`. -/
noncomputable def consecutive_distance_sum : List VesselPosition → ℝ
  | [] => 0
  | [_] => 0
  | a :: b :: rest => b.distance_to a + consecutive_distance_sum (b :: rest)

/-- `VoyageHistoryService.get_voyage_statistics` (service lines 519-579):
the explained `{'error': 'No position data available'}` outcome exactly when
the voyage has no stored positions; otherwise aggregates plus the summed
consecutive haversine distance, each rounded to 2 decimals. -/
noncomputable def get_voyage_statistics (s : StoreState) (voyage : Voyage) :
    Except String VoyageStats :=
  let positions := voyage_positions s voyage.id
  if positions.isEmpty then .error "No position data available"
  else
    let sorted := sortByTimestamp positions
    let total_distance := consecutive_distance_sum sorted
    let speeds := positions.filterMap (fun p => p.speed)
    let tss := positions.map (fun p => p.timestamp)
    let firstTs := (minQ tss).getD 0
    let lastTs := (maxQ tss).getD 0
    .ok
      { total_positions := positions.length
        total_distance_nm := roundR2 total_distance
        duration_hours := roundQ2 ((lastTs - firstTs) / 3600)
        average_speed_knots :=
          roundQ2 (if speeds.isEmpty then 0 else speeds.sum / (speeds.length : ℚ))
        max_speed_knots := roundQ2 ((maxQ speeds).getD 0)
        min_speed_knots := roundQ2 ((minQ speeds).getD 0)
        first_position_time := some firstTs
        last_position_time := some lastTs }

/-- One route entry of `get_voyage_route` (service lines 203-214). -/
structure RoutePoint where
  latitude : ℚ
  longitude : ℚ
  speed : Option ℚ
  heading : Option ℤ
  timestamp : ℚ
  source : String
  accuracy : Option ℚ
  is_interpolated : Bool
deriving DecidableEq

/-- `VoyageHistoryService.get_voyage_route` (service lines 170-220): logs
ROUTE_ACCESSED, then returns the voyage's positions ascending by timestamp,
excluding interpolated rows unless requested. -/
def get_voyage_route (s : StoreState) (voyage : Voyage)
    (include_interpolated : Bool) : List RoutePoint × StoreState :=
  let s1 := { s with audit_log := s.audit_log ++
    [⟨some voyage.vesselId, some voyage.id, "ROUTE_ACCESSED", "Route data accessed"⟩] }
  let q := voyage_positions s voyage.id
  let q2 := if include_interpolated then q else q.filter (fun p => !p.is_interpolated)
  ((sortByTimestamp q2).map (fun p =>
      ⟨p.latitude, p.longitude, p.speed, p.heading, p.timestamp,
        p.source, p.accuracy, p.is_interpolated⟩),
    s1)

/-- Voyage ids in order of first appearance (the `voyages_data` keys of
service lines 266-299). -/
def dedupVoyageIds (l : List VesselPosition) : List ℕ :=
  l.foldl (fun acc p =>
    match p.voyageId with
    | none => acc
    | some v => if acc.contains v then acc else acc ++ [v]) []

/-- History payload of `get_vessel_history` (service lines 301-316); the
per-voyage display dicts are represented by the list of voyage ids, and the
except-branch dict of lines 320-325 by `error_msg`. -/
structure VesselHistory where
  vesselId : ℕ
  positions : List VesselPosition
  voyage_ids : List ℕ
  total_positions : ℕ
  has_more : Bool
  error_msg : Option String
deriving DecidableEq

/-- `VoyageHistoryService.get_vessel_history` (service lines 222-325): logs
ROUTE_ACCESSED, returns positions in the date range ascending, capped at
`limit` when `limit` is truthy; `has_more` iff the returned count equals
`limit`. -/
def get_vessel_history (s : StoreState) (vessel : Vessel)
    (start_date end_date : ℚ) (limit : ℕ) : VesselHistory × StoreState :=
  let s1 := { s with audit_log := s.audit_log ++
    [⟨some vessel.id, none, "ROUTE_ACCESSED", "Historical data accessed"⟩] }
  let q := sortByTimestamp (s.positions.filter (fun p =>
    p.vesselId == vessel.id && decide (start_date ≤ p.timestamp) &&
      decide (p.timestamp ≤ end_date)))
  let q2 := if limit ≠ 0 then q.take limit else q
  (⟨vessel.id, q2, dedupVoyageIds q2, q2.length, q2.length == limit, none⟩, s1)

/-- Outcome of running one service method inside its `try/except` block with
an injected store failure: `result` is `.error` when the except-handler
re-raises, `.ok default` when it swallows; `error_logged` records the
`logger.error` call of the handler. -/
structure TryOutcome (α : Type) where
  result : Except String α
  error_logged : Bool

/-- The message of the injected store failure. -/
def db_error_message : String := "database error"

/-- `record_position` under an injected store error: the handler at service
lines 120-122 logs and RE-RAISES. -/
def record_position_guarded (db_fail : Bool) (s : StoreState) (vessel : Vessel)
    (latitude longitude : ℚ) (timestamp : ℚ)
    (speed : Option ℚ) (heading : Option ℤ)
    (source : String) (accuracy : Option ℚ) :
    TryOutcome (VesselPosition × StoreState) :=
  if db_fail then ⟨.error db_error_message, true⟩
  else ⟨.ok (record_position s vessel latitude longitude timestamp speed heading source accuracy), false⟩

/-- `get_voyage_route` under an injected store error: the handler at service
lines 218-220 logs and returns `[]` — the error is swallowed. -/
def get_voyage_route_guarded (db_fail : Bool) (s : StoreState) (voyage : Voyage)
    (include_interpolated : Bool) : TryOutcome (List RoutePoint) :=
  if db_fail then ⟨.ok [], true⟩
  else ⟨.ok (get_voyage_route s voyage include_interpolated).1, false⟩

/-- `get_vessel_history` under an injected store error: the handler at
service lines 318-325 logs and returns a dict carrying an `error` key. -/
def get_vessel_history_guarded (db_fail : Bool) (s : StoreState) (vessel : Vessel)
    (start_date end_date : ℚ) (limit : ℕ) : TryOutcome VesselHistory :=
  if db_fail then ⟨.ok ⟨vessel.id, [], [], 0, false, some db_error_message⟩, true⟩
  else ⟨.ok (get_vessel_history s vessel start_date end_date limit).1, false⟩

/-- `generate_replay_data` under an injected store error: the handler at
service lines 446-451 logs and returns `{'voyage_id': ..., 'error': str(e)}`. -/
noncomputable def generate_replay_data_guarded (db_fail : Bool) (s : StoreState)
    (voyage : Voyage) (mult threshold : ℚ) (interpolate_gaps : Bool) :
    TryOutcome ReplayResult :=
  if db_fail then ⟨.ok (.err voyage.id db_error_message), true⟩
  else ⟨.ok (generate_replay_data s voyage mult threshold interpolate_gaps).1, false⟩

/-- `get_voyage_statistics` under an injected store error: the handler at
service lines 577-579 logs and returns `{'error': str(e)}`. -/
noncomputable def get_voyage_statistics_guarded (db_fail : Bool) (s : StoreState)
    (voyage : Voyage) : TryOutcome (Except String VoyageStats) :=
  if db_fail then ⟨.ok (.error db_error_message), true⟩
  else ⟨.ok (get_voyage_statistics s voyage), false⟩

/-- Whether a replay result is the explained error outcome. -/
def ReplayResult.is_err : ReplayResult → Bool
  | .err _ _ => true
  | .ok _ => false

/-- Reported actual duration of a replay result (0 on the error outcome). -/
def ReplayResult.actual_duration : ReplayResult → ℚ
  | .err _ _ => 0
  | .ok d => d.metadata.actual_duration_seconds

/-- Reported replay duration of a replay result (0 on the error outcome). -/
def ReplayResult.replay_duration : ReplayResult → ℚ
  | .err _ _ => 0
  | .ok d => d.metadata.replay_duration_seconds

/-- Whether a statistics result is the explained error outcome. -/
def stats_is_error (r : Except String VoyageStats) : Bool :=
  match r with
  | .error _ => true
  | .ok _ => false

/-- Reported duration_hours of a statistics result (0 on error). -/
def stats_duration_hours (r : Except String VoyageStats) : ℚ :=
  match r with
  | .error _ => 0
  | .ok v => v.duration_hours

/-- Reported total_distance_nm of a statistics result (0 on error). -/
noncomputable def stats_total_distance (r : Except String VoyageStats) : ℝ :=
  match r with
  | .error _ => 0
  | .ok v => v.total_distance_nm

/-- Fixture vessel. -/
def v1 : Vessel := ⟨1, none, none, none, none, none⟩

/-- Fixture: a PLANNED voyage of vessel 1 departing at t=0 (eligible for
auto-start). -/
def voy5 : Voyage := ⟨5, 1, "PLANNED", 0, none⟩

/-- Fixture: a stored position of vessel 1 at t=100. -/
def posA : VesselPosition := ⟨1, 1, none, 10, 20, none, none, 100, "AIS", none, false⟩

/-- Fixture store with a planned voyage and an already-stored position. -/
def storeDup : StoreState := ⟨[v1], [voy5], [posA], [], 2⟩

/-- Fixture: an IN_PROGRESS voyage (id 6). -/
def voy6 : Voyage := ⟨6, 1, "IN_PROGRESS", 0, none⟩

/-- Fixture: an interpolated-flagged position row of voyage 6. -/
def posI : VesselPosition := ⟨7, 1, some 6, 10, 20, none, none, 500, "INTERPOLATED", none, true⟩

/-- Fixture store in which voyage 6 has one stored position, and it is
interpolated: zero real positions. -/
def storeInterpOnly : StoreState := ⟨[], [voy6], [posI], [], 8⟩

/-- Fixture: an IN_PROGRESS voyage (id 2). -/
def voy2 : Voyage := ⟨2, 1, "IN_PROGRESS", 0, none⟩

/-- Fixture: a single real position of voyage 2. -/
def posS : VesselPosition := ⟨9, 1, some 2, 10, 20, some 12, some 90, 600, "AIS", none, false⟩

/-- Fixture store in which voyage 2 has exactly one position. -/
def storeOnePos : StoreState := ⟨[], [voy2], [posS], [], 10⟩

/-- Fixture: an IN_PROGRESS voyage (id 9). -/
def voy9 : Voyage := ⟨9, 1, "IN_PROGRESS", 0, none⟩

/-- Fixture: position at latitude 1, longitude 0, t=0 (voyage 9). -/
def pM1 : VesselPosition := ⟨11, 1, some 9, 1, 0, none, none, 0, "AIS", none, false⟩

/-- Fixture: position at latitude 0, longitude 0, t=3600 (voyage 9). -/
def pM2 : VesselPosition := ⟨12, 1, some 9, 0, 0, none, none, 3600, "AIS", none, false⟩

/-- Fixture store: voyage 9 has two positions one degree of latitude apart
on the same meridian. -/
def storeMeridian : StoreState := ⟨[], [voy9], [pM1, pM2], [], 13⟩

/-- Fixture: an IN_PROGRESS voyage (id 4) departing at t=0. -/
def voyD : Voyage := ⟨4, 1, "IN_PROGRESS", 0, none⟩

/-- Fixture: first position of voyage 4, one hour AFTER departure. -/
def pD1 : VesselPosition := ⟨21, 1, some 4, 10, 20, none, none, 3600, "AIS", none, false⟩

/-- Fixture: last position of voyage 4, two hours after departure. -/
def pD2 : VesselPosition := ⟨22, 1, some 4, 11, 21, none, none, 7200, "AIS", none, false⟩

/-- Fixture store: voyage 4's first recorded position does not coincide with
its departure time. -/
def storeOffset : StoreState := ⟨[], [voyD], [pD1, pD2], [], 23⟩

/-- Fixture: an IN_PROGRESS voyage (id 7). -/
def voy7 : Voyage := ⟨7, 1, "IN_PROGRESS", 0, none⟩

/-- Fixture: spec example position A = (25.2048, 55.2708) at t0 = 0. -/
def posA7 : VesselPosition := ⟨31, 1, some 7, 25.2048, 55.2708, none, none, 0, "AIS", none, false⟩

/-- Fixture: spec example position B = (25.4, 55.5) at t0 + 2h. -/
def posB7 : VesselPosition := ⟨32, 1, some 7, 25.4, 55.5, none, none, 7200, "AIS", none, false⟩

/-- Fixture store holding exactly the two spec-example positions. -/
def store7 : StoreState := ⟨[], [voy7], [posA7, posB7], [], 33⟩

/-- Fixture replay point at offset 0. -/
def rpA : ReplayPos := ⟨10, 20, none, none, some 0, 0, 0, 0, "AIS", false⟩

/-- Fixture replay point exactly two hours later, one unit north-east. -/
def rpB : ReplayPos := ⟨11, 21, none, none, some 7200, 7200, 7200, 0, "AIS", false⟩

/-- Fixture replay point with heading 350° at offset 0. -/
def rpH350 : ReplayPos := ⟨10, 20, none, some 350, some 0, 0, 0, 0, "AIS", false⟩

/-- Fixture replay point with heading 10° two hours later. -/
def rpH10 : ReplayPos := ⟨11, 21, none, some 10, some 7200, 7200, 7200, 0, "AIS", false⟩

/-- Fixture replay point with zero speed and zero heading at offset 0. -/
def rpZ0 : ReplayPos := ⟨10, 20, some 0, some 0, some 0, 0, 0, 0, "AIS", false⟩

/-- Fixture replay point with nonzero speed and heading two hours later. -/
def rpZ1 : ReplayPos := ⟨11, 21, some 5, some 40, some 7200, 7200, 7200, 0, "AIS", false⟩

/-- Voyage association never touches the positions table. -/
theorem find_active_positions (s : StoreState) (vid : ℕ) (ts : ℚ) :
    (find_active_voyage s vid ts).2.positions = s.positions := by
  unfold find_active_voyage
  split
  · rfl
  · split
    · rfl
    · rfl

/-- Voyage association never touches the vessels table. -/
theorem find_active_vessels (s : StoreState) (vid : ℕ) (ts : ℚ) :
    (find_active_voyage s vid ts).2.vessels = s.vessels := by
  unfold find_active_voyage
  split
  · rfl
  · split
    · rfl
    · rfl

/-- Voyage association appends no POSITION_RECORDED audit entry (its only
possible write is a VOYAGE_UPDATED entry for an auto-start). -/
theorem find_active_audit_position_recorded (s : StoreState) (vid : ℕ) (ts : ℚ) :
    ((find_active_voyage s vid ts).2.audit_log.filter
        (fun e => e.action == "POSITION_RECORDED")) =
      s.audit_log.filter (fun e => e.action == "POSITION_RECORDED") := by
  unfold find_active_voyage
  split
  · rfl
  · split
    · simp
    · rfl

/-- C1: record_position is idempotent on the key (vessel, timestamp): when a
position already exists for the pair, the existing record is returned (same
row, hence same position id), the positions table is unchanged (no second
row), and the new latitude/longitude/speed/heading arguments are discarded
(the result does not depend on them). -/
theorem record_position_idempotent (s : StoreState) (vessel : Vessel)
    (lat lon ts : ℚ) (sp : Option ℚ) (hd : Option ℤ)
    (src : String) (acc : Option ℚ) (p0 : VesselPosition)
    (h : s.positions.find?
      (fun p => p.vesselId == vessel.id && p.timestamp == ts) = some p0) :
    (record_position s vessel lat lon ts sp hd src acc).1 = p0 ∧
    (record_position s vessel lat lon ts sp hd src acc).2.positions = s.positions := by
  unfold record_position
  have hp := find_active_positions s vessel.id ts
  dsimp only
  rw [hp, h]
  exact ⟨rfl, hp⟩

/-- C1 witness: the fixture store already holds a position for (vessel 1,
t=100); recording again with different coordinates returns that row and
leaves the positions table unchanged. -/
theorem record_position_idempotent_witness :
    storeDup.positions.find?
      (fun p => p.vesselId == v1.id && p.timestamp == (100 : ℚ)) = some posA ∧
    (record_position storeDup v1 55 66 100 none none "AIS" none).1 = posA ∧
    (record_position storeDup v1 55 66 100 none none "AIS" none).2.positions =
      storeDup.positions :=
  ⟨by decide,
    (record_position_idempotent storeDup v1 55 66 100 none none "AIS" none posA (by decide)).1,
    (record_position_idempotent storeDup v1 55 66 100 none none "AIS" none posA (by decide)).2⟩

/-- C9 (amended): a duplicate record_position call leaves the positions
table, the vessels table (the cached last_position/speed/heading/last_update
fields) and the set of POSITION_RECORDED audit entries unchanged; it is NOT
free of writes altogether, because the voyage lookup that precedes the
duplicate check may still auto-start a planned voyage. -/
theorem record_position_duplicate_frame (s : StoreState) (vessel : Vessel)
    (lat lon ts : ℚ) (sp : Option ℚ) (hd : Option ℤ)
    (src : String) (acc : Option ℚ) (p0 : VesselPosition)
    (h : s.positions.find?
      (fun p => p.vesselId == vessel.id && p.timestamp == ts) = some p0) :
    (record_position s vessel lat lon ts sp hd src acc).2.positions = s.positions ∧
    (record_position s vessel lat lon ts sp hd src acc).2.vessels = s.vessels ∧
    (record_position s vessel lat lon ts sp hd src acc).2.audit_log.filter
        (fun e => e.action == "POSITION_RECORDED") =
      s.audit_log.filter (fun e => e.action == "POSITION_RECORDED") := by
  unfold record_position
  have hp := find_active_positions s vessel.id ts
  dsimp only
  rw [hp, h]
  exact ⟨hp, find_active_vessels s vessel.id ts,
    find_active_audit_position_recorded s vessel.id ts⟩

/-- C9 witness: at the fixture store, the duplicate call leaves positions,
vessels and POSITION_RECORDED entries unchanged. -/
theorem record_position_duplicate_frame_witness :
    storeDup.positions.find?
      (fun p => p.vesselId == v1.id && p.timestamp == (100 : ℚ)) = some posA ∧
    (record_position storeDup v1 55 66 100 none none "AIS" none).2.vessels =
      storeDup.vessels :=
  ⟨by decide,
    (record_position_duplicate_frame storeDup v1 55 66 100 none none "AIS" none posA
      (by decide)).2.1⟩

/-- C9 counterexample: the claim "performs no writes at all" is false — on
the fixture store the duplicate call still mutates the store, because the
voyage lookup auto-starts the planned voyage (status write plus a
VOYAGE_UPDATED audit entry) before the duplicate check runs. -/
theorem record_position_duplicate_still_writes :
    (record_position storeDup v1 55 66 100 none none "AIS" none).2 ≠ storeDup := by
  have hv : (record_position storeDup v1 55 66 100 none none "AIS" none).2.voyages =
      [⟨5, 1, "IN_PROGRESS", 0, none⟩] := by
    unfold record_position
    dsimp only
    rw [show (find_active_voyage storeDup v1.id 100).2.positions.find?
        (fun p => p.vesselId == v1.id && p.timestamp == (100 : ℚ)) = some posA by
      rw [find_active_positions]; decide]
    norm_num [find_active_voyage, firstByDepartureDesc, voyageMatchesActive,
      voyageMatchesPlanned, storeDup, voy5, v1, posA, List.filter,
      List.insertionSort, List.orderedInsert]
  intro h
  rw [h] at hv
  exact absurd (List.head_eq_of_cons_eq hv) (by decide)

/-- C8 (amended): under an injected store error, record_position logs and
re-raises, but the other four operations log and swallow the error,
returning a default or error-keyed result instead of propagating the
failure. -/
theorem store_error_handling (s : StoreState) (vessel : Vessel) (voyage : Voyage)
    (lat lon ts sd ed mult threshold : ℚ) (sp : Option ℚ) (hd : Option ℤ)
    (src : String) (acc : Option ℚ) (limit : ℕ) (incl ig : Bool) :
    (record_position_guarded true s vessel lat lon ts sp hd src acc).result =
        .error db_error_message ∧
    (record_position_guarded true s vessel lat lon ts sp hd src acc).error_logged = true ∧
    (get_voyage_route_guarded true s voyage incl).result = .ok [] ∧
    (get_voyage_route_guarded true s voyage incl).error_logged = true ∧
    (get_vessel_history_guarded true s vessel sd ed limit).result =
        .ok ⟨vessel.id, [], [], 0, false, some db_error_message⟩ ∧
    (get_vessel_history_guarded true s vessel sd ed limit).error_logged = true ∧
    (generate_replay_data_guarded true s voyage mult threshold ig).result =
        .ok (.err voyage.id db_error_message) ∧
    (generate_replay_data_guarded true s voyage mult threshold ig).error_logged = true ∧
    (get_voyage_statistics_guarded true s voyage).result = .ok (.error db_error_message) ∧
    (get_voyage_statistics_guarded true s voyage).error_logged = true :=
  ⟨rfl, rfl, rfl, rfl, rfl, rfl, rfl, rfl, rfl, rfl⟩

/-- C8 counterexample: the claim says every core operation re-raises store
errors, but get_voyage_route swallows them: with an injected failure it
returns the default empty route as a SUCCESS value. -/
theorem route_swallows_store_error :
    (get_voyage_route_guarded true storeDup voy5 false).result = .ok [] ∧
    (get_voyage_route_guarded true storeDup voy5 false).result.isOk = true :=
  ⟨rfl, rfl⟩

/-- Sorting by timestamp preserves emptiness. -/
theorem sortByTimestamp_eq_nil (l : List VesselPosition) :
    sortByTimestamp l = [] ↔ l = [] := by
  constructor
  · intro h0
    have hp : List.Perm (sortByTimestamp l) l := List.perm_insertionSort _ l
    rw [h0] at hp
    exact hp.symm.eq_nil
  · intro h0
    rw [h0]
    rfl

/-- Sorting by timestamp preserves length. -/
theorem sortByTimestamp_length (l : List VesselPosition) :
    (sortByTimestamp l).length = l.length :=
  (List.perm_insertionSort _ l).length_eq

/-- C6 (amended): get_voyage_statistics returns its explained error outcome
exactly when the voyage has zero stored positions, and generate_replay_data
returns its explained error outcome exactly when the voyage has zero stored
positions of ANY kind — the check does not look at the is_interpolated flag,
so "zero real (non-interpolated) positions" is not the trigger; both cases
are returned values, not raised failures. -/
theorem empty_outcomes (s : StoreState) (voyage : Voyage)
    (mult threshold : ℚ) (ig : Bool) (hm : 0 < mult) :
    (stats_is_error (get_voyage_statistics s voyage) = true ↔
      voyage_positions s voyage.id = []) ∧
    ((generate_replay_data s voyage mult threshold ig).1.is_err = true ↔
      voyage_positions s voyage.id = []) := by
  have e1 : stats_is_error (get_voyage_statistics s voyage) =
      (voyage_positions s voyage.id).isEmpty := by
    by_cases h : (voyage_positions s voyage.id).isEmpty = true <;>
      simp [get_voyage_statistics, h, stats_is_error]
  have e2 : (generate_replay_data s voyage mult threshold ig).1.is_err =
      (sortByTimestamp (voyage_positions s voyage.id)).isEmpty := by
    by_cases h : (sortByTimestamp (voyage_positions s voyage.id)).isEmpty = true <;>
      simp [generate_replay_data, h, ReplayResult.is_err]
  constructor
  · rw [e1, List.isEmpty_iff]
  · rw [e2, List.isEmpty_iff, sortByTimestamp_eq_nil]

/-- C6 witness: with a positive multiplier and a store where voyage 2 has a
position, neither outcome is the error. -/
theorem empty_outcomes_witness :
    (0 : ℚ) < 1 ∧
    (stats_is_error (get_voyage_statistics storeOnePos voy2) = true ↔
      voyage_positions storeOnePos voy2.id = []) :=
  ⟨by norm_num, (empty_outcomes storeOnePos voy2 1 30 true (by norm_num)).1⟩

/-- C6 counterexample: a voyage whose only stored position is interpolated
has zero real (non-interpolated) positions, yet generate_replay_data does
NOT return the error outcome — the check counts interpolated rows too. -/
theorem replay_error_ignores_interpolated_flag :
    (voyage_positions storeInterpOnly voy6.id).filter (fun p => !p.is_interpolated) = [] ∧
    (generate_replay_data storeInterpOnly voy6 1 30 true).1.is_err = false := by
  constructor
  · decide
  · rfl

/-- The sum over consecutive pairs of a one-element route is 0. -/
theorem consecutive_distance_sum_singleton (x : VesselPosition) :
    consecutive_distance_sum [x] = 0 := rfl

/-- C2 (amended): for a voyage with at least one position, the reported
total_distance_nm equals the sum of consecutive haversine distances (earth
radius 3440.065 nm) over the positions sorted ascending by timestamp,
ROUNDED to two decimals (the code rounds for presentation), and equals 0
when the voyage has exactly one position; a voyage with zero positions gets
the error outcome instead (C6). -/
theorem statistics_distance_rounded_sum (s : StoreState) (voyage : Voyage)
    (h : voyage_positions s voyage.id ≠ []) :
    stats_total_distance (get_voyage_statistics s voyage) =
      roundR2 (consecutive_distance_sum (sortByTimestamp (voyage_positions s voyage.id))) ∧
    ((voyage_positions s voyage.id).length = 1 →
      stats_total_distance (get_voyage_statistics s voyage) = 0) := by
  have hne : (voyage_positions s voyage.id).isEmpty = false := by
    cases hl : voyage_positions s voyage.id with
    | nil => exact absurd hl h
    | cons a t => rfl
  have hmain : stats_total_distance (get_voyage_statistics s voyage) =
      roundR2 (consecutive_distance_sum (sortByTimestamp (voyage_positions s voyage.id))) := by
    simp [get_voyage_statistics, hne, stats_total_distance]
  refine ⟨hmain, fun h1 => ?_⟩
  have hlen : (sortByTimestamp (voyage_positions s voyage.id)).length = 1 := by
    rw [sortByTimestamp_length]; exact h1
  obtain ⟨x, hx⟩ := List.length_eq_one.1 hlen
  rw [hmain, hx, consecutive_distance_sum_singleton]
  unfold roundR2
  norm_num

/-- C2 witness: voyage 2 of the one-position fixture store. -/
theorem statistics_distance_rounded_sum_witness :
    voyage_positions storeOnePos voy2.id ≠ [] ∧
    stats_total_distance (get_voyage_statistics storeOnePos voy2) =
      roundR2 (consecutive_distance_sum (sortByTimestamp (voyage_positions storeOnePos voy2.id))) :=
  ⟨by decide, (statistics_distance_rounded_sum storeOnePos voy2 (by decide)).1⟩

/-- Two positions one degree of latitude apart on the same meridian are
exactly pi times 3440.065 / 180 nautical miles apart under the implemented
haversine. -/
theorem haversine_meridian_eq : haversine_nm 0 0 1 0 = Real.pi * 3440.065 / 180 := by
  have hx : (0:ℝ) ≤ Real.pi / 360 := by positivity
  have hx2 : Real.pi / 360 ≤ Real.pi := by linarith [Real.pi_pos]
  have hs : Real.sqrt (Real.sin (Real.pi/360)^2) = Real.sin (Real.pi/360) :=
    Real.sqrt_sq (Real.sin_nonneg_of_nonneg_of_le_pi hx hx2)
  have harc : Real.arcsin (Real.sin (Real.pi/360)) = Real.pi/360 :=
    Real.arcsin_sin (by linarith [Real.pi_pos]) (by linarith [Real.pi_pos])
  unfold haversine_nm
  dsimp only
  push_cast
  norm_num
  rw [show (Real.pi/180)/2 = Real.pi/360 by ring]
  rw [hs, harc]
  ring

/-- C2 counterexample: on the meridian fixture the reported
total_distance_nm is the ROUNDED value 60.04, which differs from the exact
haversine sum (an irrational number strictly between 60.0404 and 60.0405),
so "total_distance_nm equal to the sum of haversine distances" fails as an
exact equality. -/
theorem statistics_distance_not_exact :
    stats_total_distance (get_voyage_statistics storeMeridian voy9) ≠
      consecutive_distance_sum (sortByTimestamp (voyage_positions storeMeridian voy9.id)) := by
  have hL : stats_total_distance (get_voyage_statistics storeMeridian voy9) =
      roundR2 (consecutive_distance_sum (sortByTimestamp (voyage_positions storeMeridian voy9.id))) := rfl
  have hsum : consecutive_distance_sum (sortByTimestamp (voyage_positions storeMeridian voy9.id)) =
      haversine_nm 0 0 1 0 := by
    show haversine_nm 0 0 1 0 + 0 = haversine_nm 0 0 1 0
    exact add_zero _
  have hgt := Real.pi_gt_d6
  have hlt := Real.pi_lt_d6
  have hround : (round (Real.pi * 3440.065 / 180 * 100) : ℤ) = 6004 := by
    rw [round_eq]
    refine Int.floor_eq_iff.2 ⟨?_, ?_⟩
    · push_cast
      nlinarith
    · push_cast
      nlinarith
  rw [hL, hsum, haversine_meridian_eq]
  unfold roundR2
  rw [hround]
  push_cast
  intro heq
  nlinarith

/-- Evaluation of the interpolator on one consecutive pair exactly two hours
apart with the default 30-minute threshold: `int(7200/1800) = 4` synthetic
points at fractions 1/5 .. 4/5. -/
theorem interpolate_segment_7200 (prev cur : ReplayPos)
    (hgap : cur.time_offset_seconds - prev.time_offset_seconds = 7200) :
    interpolate_segment 30 prev cur =
      [mk_interpolated prev cur 7200 (1/5), mk_interpolated prev cur 7200 (2/5),
       mk_interpolated prev cur 7200 (3/5), mk_interpolated prev cur 7200 (4/5)] := by
  unfold interpolate_segment
  dsimp only
  rw [hgap]
  rw [show ((30:ℚ)*60) = 1800 by norm_num]
  rw [if_pos (by norm_num : (7200:ℚ) > 1800)]
  have hnum : (pyInt ((7200:ℚ)/1800)).toNat = 4 := by
    unfold pyInt
    rw [if_neg (by norm_num)]
    rw [show ⌊(7200:ℚ)/1800⌋ = 4 from Int.floor_eq_iff.2 ⟨by norm_num, by norm_num⟩]
    rfl
  rw [hnum]
  norm_num [List.range_succ]

/-- C3 (amended): with interpolate_gaps on a 2-position route whose
positions are exactly 2 hours apart and a 30-minute threshold, exactly FOUR
synthetic is_interpolated points are inserted (N = int(gap/threshold) =
int(7200/1800) = 4, not 3), and each synthetic point's time offset, latitude
and longitude lie strictly between the endpoints' values (given the
endpoints' coordinates are strictly ordered). -/
theorem two_hour_gap_interpolation (prev cur : ReplayPos)
    (hgap : cur.time_offset_seconds - prev.time_offset_seconds = 7200)
    (hlat : prev.latitude < cur.latitude) (hlon : prev.longitude < cur.longitude) :
    interpolate_replay_positions 30 [prev, cur] =
      prev :: (interpolate_segment 30 prev cur ++ [cur]) ∧
    (interpolate_segment 30 prev cur).length = 4 ∧
    ∀ x ∈ interpolate_segment 30 prev cur,
      x.is_interpolated = true ∧
      prev.time_offset_seconds < x.time_offset_seconds ∧
      x.time_offset_seconds < cur.time_offset_seconds ∧
      prev.latitude < x.latitude ∧ x.latitude < cur.latitude ∧
      prev.longitude < x.longitude ∧ x.longitude < cur.longitude := by
  have hseg := interpolate_segment_7200 prev cur hgap
  refine ⟨rfl, by rw [hseg]; rfl, ?_⟩
  intro x hx
  rw [hseg] at hx
  have hd := sub_pos.2 hlat
  have hd2 := sub_pos.2 hlon
  have hc : cur.time_offset_seconds = prev.time_offset_seconds + 7200 := by linarith
  simp only [List.mem_cons, List.not_mem_nil, or_false] at hx
  rcases hx with rfl | rfl | rfl | rfl <;>
    refine ⟨rfl, ?_, ?_, ?_, ?_, ?_, ?_⟩ <;>
    simp only [mk_interpolated] <;> linarith

/-- C3 counterexample: on the concrete 2-hour-gap fixture pair, the number
of synthetic points is not 3 (it is 4). -/
theorem two_hour_gap_not_three_points :
    ¬ ((interpolate_replay_positions 30 [rpA, rpB]).countP
        (fun p => p.is_interpolated) = 3) := by
  have hseg := interpolate_segment_7200 rpA rpB (by norm_num [rpA, rpB])
  have e : interpolate_replay_positions 30 [rpA, rpB] =
      rpA :: (interpolate_segment 30 rpA rpB ++ [rpB]) := rfl
  rw [e, hseg]
  simp [List.countP_cons, List.countP_append, mk_interpolated, rpA, rpB]

/-- C3 witness: the fixture pair is exactly two hours apart and gets exactly
four synthetic points. -/
theorem two_hour_gap_interpolation_witness :
    rpB.time_offset_seconds - rpA.time_offset_seconds = 7200 ∧
    (interpolate_segment 30 rpA rpB).length = 4 :=
  ⟨by norm_num [rpA, rpB],
    (two_hour_gap_interpolation rpA rpB (by norm_num [rpA, rpB])
      (by norm_num [rpA, rpB]) (by norm_num [rpA, rpB])).2.1⟩

/-- Evaluation helper: the floor of a rational between two consecutive
integers. -/
theorem floorQ_eval (q : ℚ) (n : ℤ) (h1 : (n:ℚ) ≤ q) (h2 : q < n + 1) : ⌊q⌋ = n :=
  Int.floor_eq_iff.2 ⟨h1, h2⟩

/-- C4 (amended): for endpoint headings in 0-359 the heading difference is
normalised into the CLOSED band [-180, 180] (the value -180 is reachable,
e.g. 200° to 20°, an exact 180° tie, so the spec's half-open (-180, 180] is
off by that boundary case) and stays congruent to the raw difference mod
360, so scaling follows a shortest angular path; interpolating 350° to 10°
takes the +20° short path — the synthetic headings on a concrete
350°-to-10° pair are 354, 358, 2, 6, never values of the 340° long path.
(An endpoint heading of exactly 0 suppresses heading interpolation
entirely — see C10.) -/
theorem heading_interpolation_short_path (p c : ℤ)
    (hp1 : 0 ≤ p) (hp2 : p ≤ 359) (hc1 : 0 ≤ c) (hc2 : c ≤ 359) :
    (-180 ≤ normHeadingDiff p c ∧ normHeadingDiff p c ≤ 180 ∧
      (360 : ℤ) ∣ (c - p - normHeadingDiff p c)) ∧
    normHeadingDiff 350 10 = 20 ∧
    (interpolate_segment 30 rpH350 rpH10).map (fun x => x.heading) =
      [some 354, some 358, some 2, some 6] := by
  refine ⟨?_, by decide, ?_⟩
  · unfold normHeadingDiff
    dsimp only
    split_ifs <;> omega
  · have e1 : ⌊(354:ℚ)/360⌋ = (0:ℤ) := floorQ_eval _ _ (by norm_num) (by norm_num)
    have e2 : ⌊(358:ℚ)/360⌋ = (0:ℤ) := floorQ_eval _ _ (by norm_num) (by norm_num)
    have e3 : ⌊(362:ℚ)/360⌋ = (1:ℤ) := floorQ_eval _ _ (by norm_num) (by norm_num)
    have e4 : ⌊(366:ℚ)/360⌋ = (1:ℤ) := floorQ_eval _ _ (by norm_num) (by norm_num)
    have f1 : ⌊(354:ℚ)⌋ = (354:ℤ) := floorQ_eval _ _ (by norm_num) (by norm_num)
    have f2 : ⌊(358:ℚ)⌋ = (358:ℤ) := floorQ_eval _ _ (by norm_num) (by norm_num)
    have f3 : ⌊(2:ℚ)⌋ = (2:ℤ) := floorQ_eval _ _ (by norm_num) (by norm_num)
    have f4 : ⌊(6:ℚ)⌋ = (6:ℤ) := floorQ_eval _ _ (by norm_num) (by norm_num)
    rw [interpolate_segment_7200 rpH350 rpH10 (by norm_num [rpH350, rpH10])]
    simp only [List.map_cons, List.map_nil, mk_interpolated]
    norm_num [synth_heading, interp_heading_value, normHeadingDiff, fmodQ, pyInt,
      rpH350, rpH10, e1, e2, e3, e4, f1, f2, f3, f4]

/-- C4 witness: instantiating at the wraparound example 350° and 10°. -/
theorem heading_interpolation_short_path_witness :
    (-180 ≤ normHeadingDiff 350 10 ∧ normHeadingDiff 350 10 ≤ 180) ∧
    normHeadingDiff 350 10 = 20 :=
  ⟨⟨(heading_interpolation_short_path 350 10 (by decide) (by decide) (by decide)
        (by decide)).1.1,
    (heading_interpolation_short_path 350 10 (by decide) (by decide) (by decide)
        (by decide)).1.2.1⟩,
    (heading_interpolation_short_path 350 10 (by decide) (by decide) (by decide)
        (by decide)).2.1⟩

/-- C4 counterexample: for headings 200° and 20° the normalised difference
is exactly -180, which lies outside the claimed half-open interval
(-180, 180]. -/
theorem heading_diff_not_in_open_interval :
    ¬ (-180 < normHeadingDiff 200 20 ∧ normHeadingDiff 200 20 ≤ 180) := by
  decide

/-- Truthiness on the interpolated speed: a missing OR zero endpoint speed
yields no interpolated speed. -/
theorem synth_speed_zero_none (ps cs : Option ℚ) (frac : ℚ)
    (h : ps = none ∨ ps = some 0 ∨ cs = none ∨ cs = some 0) :
    synth_speed ps cs frac = none := by
  unfold synth_speed
  rcases h with rfl|rfl|rfl|rfl
  · cases cs <;> rfl
  · cases cs with
    | none => rfl
    | some b => simp
  · cases ps <;> rfl
  · cases ps with
    | none => rfl
    | some a => simp

/-- Truthiness on the interpolated heading: a missing OR zero endpoint
heading yields no interpolated heading. -/
theorem synth_heading_zero_none (ph ch : Option ℤ) (frac : ℚ)
    (h : ph = none ∨ ph = some 0 ∨ ch = none ∨ ch = some 0) :
    synth_heading ph ch frac = none := by
  unfold synth_heading
  rcases h with rfl|rfl|rfl|rfl
  · cases ch <;> rfl
  · cases ch with
    | none => rfl
    | some b => simp
  · cases ph <;> rfl
  · cases ph with
    | none => rfl
    | some a => simp

/-- C10: in gap interpolation an endpoint speed or heading of 0 is treated
like a missing value (Python truthiness): every synthetic point of such a
pair carries speed null resp. heading null; and a computed interpolated
heading of exactly 0° is emitted as null rather than 0. -/
theorem zero_values_treated_missing (th : ℚ) (prev cur : ReplayPos) :
    ((prev.speed = none ∨ prev.speed = some 0 ∨ cur.speed = none ∨ cur.speed = some 0) →
      ∀ x ∈ interpolate_segment th prev cur, x.speed = none) ∧
    ((prev.heading = none ∨ prev.heading = some 0 ∨ cur.heading = none ∨
        cur.heading = some 0) →
      ∀ x ∈ interpolate_segment th prev cur, x.heading = none) ∧
    (∀ ph ch : ℤ, ∀ frac : ℚ, interp_heading_value ph ch frac = 0 →
      synth_heading (some ph) (some ch) frac = none) := by
  refine ⟨?_, ?_, ?_⟩
  · intro hs x hx
    unfold interpolate_segment at hx
    dsimp only at hx
    split at hx
    · obtain ⟨j, hj, rfl⟩ := List.mem_map.1 hx
      simp only [mk_interpolated]
      exact synth_speed_zero_none _ _ _ hs
    · cases hx
  · intro hs x hx
    unfold interpolate_segment at hx
    dsimp only at hx
    split at hx
    · obtain ⟨j, hj, rfl⟩ := List.mem_map.1 hx
      simp only [mk_interpolated]
      exact synth_heading_zero_none _ _ _ hs
    · cases hx
  · intro ph ch frac h0
    show (if ph ≠ 0 ∧ ch ≠ 0 then
        if interp_heading_value ph ch frac = 0 then none
        else some (pyInt (interp_heading_value ph ch frac))
      else none) = none
    by_cases hc : ph ≠ 0 ∧ ch ≠ 0
    · rw [if_pos hc, if_pos h0]
    · rw [if_neg hc]

/-- C10 witness: a pair whose first endpoint has speed 0 and heading 0, and
the 350°-to-10° midpoint whose computed heading is exactly 0. -/
theorem zero_values_treated_missing_witness :
    rpZ0.speed = some 0 ∧ rpZ0.heading = some 0 ∧
    interp_heading_value 350 10 (1/2) = 0 ∧
    (∀ x ∈ interpolate_segment 30 rpZ0 rpZ1, x.speed = none) ∧
    (∀ x ∈ interpolate_segment 30 rpZ0 rpZ1, x.heading = none) ∧
    synth_heading (some 350) (some 10) (1/2) = none := by
  have hv : interp_heading_value 350 10 (1/2) = 0 := by
    unfold interp_heading_value fmodQ
    rw [show normHeadingDiff 350 10 = 20 from by decide]
    push_cast
    norm_num
  exact ⟨rfl, rfl, hv,
    (zero_values_treated_missing 30 rpZ0 rpZ1).1 (Or.inr (Or.inl rfl)),
    (zero_values_treated_missing 30 rpZ0 rpZ1).2.1 (Or.inr (Or.inl rfl)),
    (zero_values_treated_missing 30 rpZ0 rpZ1).2.2 350 10 (1/2) hv⟩

/-- The replay entry built for the last real position carries time offset
`last.timestamp - departure_time`, whatever the running previous-position
argument is. -/
theorem build_replay_getLast (dep mult : ℚ) :
    ∀ (l : List VesselPosition) (prevOpt : Option VesselPosition),
      ((build_replay_list dep mult prevOpt l).getLast?).map (fun r => r.time_offset_seconds) =
        (l.getLast?).map (fun p => p.timestamp - dep)
  | [], _ => rfl
  | [x], _ => rfl
  | x :: y :: ys, prevOpt => by
    have ih := build_replay_getLast dep mult (y :: ys) (some x)
    simp only [build_replay_list] at ih ⊢
    rw [List.getLast?_cons_cons, List.getLast?_cons_cons]
    exact ih

/-- Building replay entries preserves non-emptiness. -/
theorem build_replay_ne_nil (dep mult : ℚ) (prevOpt : Option VesselPosition)
    (l : List VesselPosition) (h : l ≠ []) :
    build_replay_list dep mult prevOpt l ≠ [] := by
  obtain ⟨x, xs, rfl⟩ := List.exists_cons_of_ne_nil h
  simp [build_replay_list]

/-- The interpolation walk over a non-empty tail is non-empty. -/
theorem interpolate_walk_ne_nil (th : ℚ) (prev c : ReplayPos) (rest : List ReplayPos) :
    interpolate_walk th prev (c :: rest) ≠ [] := by
  simp [interpolate_walk]

/-- The interpolation walk keeps the last (real) element last. -/
theorem interpolate_walk_getLast (th : ℚ) :
    ∀ (rest : List ReplayPos) (prev : ReplayPos), rest ≠ [] →
      (interpolate_walk th prev rest).getLast? = rest.getLast?
  | [], _, h => absurd rfl h
  | [c], prev, _ => by
    simp only [interpolate_walk]
    exact List.getLast?_concat _
  | c :: d :: ds, prev, _ => by
    have ih := interpolate_walk_getLast th (d :: ds) c (List.cons_ne_nil d ds)
    simp only [interpolate_walk] at ih ⊢
    rw [List.getLast?_append]
    obtain ⟨u, us, hu⟩ := List.exists_cons_of_ne_nil
      (interpolate_walk_ne_nil th c d ds)
    simp only [interpolate_walk] at hu
    rw [hu] at ih ⊢
    rw [List.getLast?_cons_cons, List.getLast?_cons_cons, ih]
    cases hds : (d :: ds).getLast? with
    | none => rw [List.getLast?_eq_none_iff] at hds; cases hds
    | some q => rfl

/-- Gap interpolation keeps the last (real) element last. -/
theorem interpolate_getLast (th : ℚ) (l : List ReplayPos) (h : l ≠ []) :
    (interpolate_replay_positions th l).getLast? = l.getLast? := by
  cases l with
  | nil => exact absurd rfl h
  | cons p rest =>
    cases rest with
    | nil => rfl
    | cons c cs =>
      simp only [interpolate_replay_positions]
      obtain ⟨u, us, hu⟩ := List.exists_cons_of_ne_nil (interpolate_walk_ne_nil th p c cs)
      rw [hu, List.getLast?_cons_cons, ← hu,
        interpolate_walk_getLast th (c :: cs) p (List.cons_ne_nil c cs),
        List.getLast?_cons_cons]

/-- Characterisation of the replay metadata durations: actual duration is
the LAST sorted position's timestamp minus the voyage departure time, and
the replay duration divides it by the multiplier. -/
theorem replay_duration_characterization (s : StoreState) (voyage : Voyage)
    (mult threshold : ℚ) (ig : Bool)
    (h : voyage_positions s voyage.id ≠ []) :
    (generate_replay_data s voyage mult threshold ig).1.actual_duration =
      ((sortByTimestamp (voyage_positions s voyage.id)).getLast?.elim 0
        (fun p => p.timestamp)) - voyage.departure_time ∧
    (generate_replay_data s voyage mult threshold ig).1.replay_duration =
      (generate_replay_data s voyage mult threshold ig).1.actual_duration / mult := by
  have hLne : sortByTimestamp (voyage_positions s voyage.id) ≠ [] := by
    rw [Ne, sortByTimestamp_eq_nil]
    exact h
  have hLE : (sortByTimestamp (voyage_positions s voyage.id)).isEmpty = false := by
    cases hl : sortByTimestamp (voyage_positions s voyage.id) with
    | nil => exact absurd hl hLne
    | cons a t => rfl
  obtain ⟨p, hp⟩ : ∃ p, (sortByTimestamp (voyage_positions s voyage.id)).getLast? = some p := by
    cases hl : (sortByTimestamp (voyage_positions s voyage.id)).getLast? with
    | none => rw [List.getLast?_eq_none_iff] at hl; exact absurd hl hLne
    | some p => exact ⟨p, rfl⟩
  have hbne : build_replay_list voyage.departure_time mult none
      (sortByTimestamp (voyage_positions s voyage.id)) ≠ [] :=
    build_replay_ne_nil _ _ _ _ hLne
  have hbase := build_replay_getLast voyage.departure_time mult
    (sortByTimestamp (voyage_positions s voyage.id)) none
  rw [hp] at hbase
  obtain ⟨r, hr⟩ : ∃ r, (build_replay_list voyage.departure_time mult none
      (sortByTimestamp (voyage_positions s voyage.id))).getLast? = some r := by
    cases hl : (build_replay_list voyage.departure_time mult none
        (sortByTimestamp (voyage_positions s voyage.id))).getLast? with
    | none => rw [List.getLast?_eq_none_iff] at hl; exact absurd hl hbne
    | some r => exact ⟨r, rfl⟩
  rw [hr] at hbase
  simp only [Option.map] at hbase
  have hroff : r.time_offset_seconds = p.timestamp - voyage.departure_time :=
    Option.some.inj hbase
  have hrp : (if ig then
      interpolate_replay_positions threshold (build_replay_list voyage.departure_time mult none
        (sortByTimestamp (voyage_positions s voyage.id)))
    else build_replay_list voyage.departure_time mult none
        (sortByTimestamp (voyage_positions s voyage.id))).getLast? = some r := by
    cases ig with
    | true =>
      rw [if_pos rfl]
      rw [interpolate_getLast threshold _ hbne]
      exact hr
    | false => exact hr
  unfold generate_replay_data
  dsimp only
  rw [if_neg (by rw [hLE]; exact Bool.false_ne_true)]
  dsimp only [ReplayResult.actual_duration, ReplayResult.replay_duration]
  rw [hrp, hp]
  dsimp only [Option.elim]
  exact ⟨hroff, rfl⟩

/-- C5 (amended): for every voyage with at least one position,
actual_duration_seconds is the time offset of the LAST real position from
the voyage's departure_time (NOT the span between the first and last
recorded positions — those coincide only when the first position is at
departure time), and replay_duration_seconds is that value divided by the
speed multiplier (so multiplier 2.0 halves it). -/
theorem replay_durations (s : StoreState) (voyage : Voyage)
    (mult threshold : ℚ) (ig : Bool) (hm : 0 < mult)
    (h : voyage_positions s voyage.id ≠ []) :
    (generate_replay_data s voyage mult threshold ig).1.actual_duration =
      ((sortByTimestamp (voyage_positions s voyage.id)).getLast?.elim 0
        (fun p => p.timestamp)) - voyage.departure_time ∧
    (generate_replay_data s voyage mult threshold ig).1.replay_duration =
      (generate_replay_data s voyage mult threshold ig).1.actual_duration / mult :=
  replay_duration_characterization s voyage mult threshold ig h

/-- C5 witness: on the offset fixture store with multiplier 2, the replay
duration is the actual duration halved. -/
theorem replay_durations_witness :
    (0:ℚ) < 2 ∧ voyage_positions storeOffset voyD.id ≠ [] ∧
    (generate_replay_data storeOffset voyD 2 30 true).1.replay_duration =
      (generate_replay_data storeOffset voyD 2 30 true).1.actual_duration / 2 :=
  ⟨by norm_num, by decide,
    (replay_durations storeOffset voyD 2 30 true (by norm_num) (by decide)).2⟩

/-- C5 counterexample: voyage 4 departs at t=0 but its first position is at
t=3600 and its last at t=7200; the span between first and last real
positions is 3600 s, yet the reported actual_duration_seconds is 7200 s
(last position minus DEPARTURE time), so the claim fails. -/
theorem replay_actual_duration_not_span :
    (generate_replay_data storeOffset voyD 2 30 true).1.actual_duration ≠
      ((7200 : ℚ) - 3600) := by
  have hc := (replay_duration_characterization storeOffset voyD 2 30 true (by decide)).1
  rw [hc]
  show (7200 : ℚ) - 0 ≠ 7200 - 3600
  norm_num

/-- Taylor lower bound for sin on a small nonnegative interval. -/
theorem sin_ge_taylor (x lo hi : ℝ) (h0 : 0 ≤ lo) (h1 : lo ≤ x) (h2 : x ≤ hi)
    (h3 : hi ≤ 1) : lo - hi^3/6 - hi^4*(5/96) ≤ Real.sin x := by
  have hx0 : (0:ℝ) ≤ x := le_trans h0 h1
  have hxa : |x| ≤ 1 := by
    rw [abs_of_nonneg hx0]
    linarith
  have hb := Real.sin_bound hxa
  rw [abs_of_nonneg hx0] at hb
  have hb1 := abs_le.1 hb
  have p3 : x^3 ≤ hi^3 := pow_le_pow_left₀ hx0 h2 3
  have p4 : x^4 ≤ hi^4 := pow_le_pow_left₀ hx0 h2 4
  nlinarith [hb1.1, hb1.2]

/-- Taylor upper bound for sin on a small nonnegative interval. -/
theorem sin_le_taylor (x lo hi : ℝ) (h0 : 0 ≤ lo) (h1 : lo ≤ x) (h2 : x ≤ hi)
    (h3 : hi ≤ 1) : Real.sin x ≤ hi - lo^3/6 + hi^4*(5/96) := by
  have hx0 : (0:ℝ) ≤ x := le_trans h0 h1
  have hxa : |x| ≤ 1 := by
    rw [abs_of_nonneg hx0]
    linarith
  have hb := Real.sin_bound hxa
  rw [abs_of_nonneg hx0] at hb
  have hb1 := abs_le.1 hb
  have p3 : lo^3 ≤ x^3 := pow_le_pow_left₀ h0 h1 3
  have p4 : x^4 ≤ hi^4 := pow_le_pow_left₀ hx0 h2 4
  nlinarith [hb1.1, hb1.2]

/-- Rational bounds for half the example's latitude difference in radians. -/
theorem x1_bounds :
    (0.0017034409 : ℝ) ≤ 0.0976 * Real.pi / 180 ∧
    (0.0976 : ℝ) * Real.pi / 180 ≤ 0.0017034416 := by
  have h1 := Real.pi_gt_d6
  have h2 := Real.pi_lt_d6
  constructor <;> nlinarith

/-- Rational bounds for the sine of half the latitude difference. -/
theorem sin_x1_bounds :
    (0.0017034400 : ℝ) ≤ Real.sin (0.0976 * Real.pi / 180) ∧
    Real.sin (0.0976 * Real.pi / 180) ≤ 0.0017034408 := by
  obtain ⟨hl, hh⟩ := x1_bounds
  constructor
  · have hb := sin_ge_taylor (0.0976 * Real.pi / 180) 0.0017034409 0.0017034416
      (by norm_num) hl hh (by norm_num)
    nlinarith [hb]
  · have hb := sin_le_taylor (0.0976 * Real.pi / 180) 0.0017034409 0.0017034416
      (by norm_num) hl hh (by norm_num)
    nlinarith [hb]

/-- Rational bounds for half the example's longitude difference in radians. -/
theorem x2_bounds :
    (0.0020001469 : ℝ) ≤ 0.1146 * Real.pi / 180 ∧
    (0.1146 : ℝ) * Real.pi / 180 ≤ 0.0020001476 := by
  have h1 := Real.pi_gt_d6
  have h2 := Real.pi_lt_d6
  constructor <;> nlinarith

/-- Rational bounds for the sine of half the longitude difference. -/
theorem sin_x2_bounds :
    (0.0020001455 : ℝ) ≤ Real.sin (0.1146 * Real.pi / 180) ∧
    Real.sin (0.1146 * Real.pi / 180) ≤ 0.0020001463 := by
  obtain ⟨hl, hh⟩ := x2_bounds
  constructor
  · have hb := sin_ge_taylor (0.1146 * Real.pi / 180) 0.0020001469 0.0020001476
      (by norm_num) hl hh (by norm_num)
    nlinarith [hb]
  · have hb := sin_le_taylor (0.1146 * Real.pi / 180) 0.0020001469 0.0020001476
      (by norm_num) hl hh (by norm_num)
    nlinarith [hb]

/-- Rational bounds for half the first latitude in radians. -/
theorem y1_bounds :
    (0.2199533278 : ℝ) ≤ 12.6024 * Real.pi / 180 ∧
    (12.6024 : ℝ) * Real.pi / 180 ≤ 0.2199533980 := by
  have h1 := Real.pi_gt_d6
  have h2 := Real.pi_lt_d6
  constructor <;> nlinarith

/-- Rational bounds for the sine of half the first latitude. -/
theorem sin_y1_bounds :
    (0.2180578836 : ℝ) ≤ Real.sin (12.6024 * Real.pi / 180) ∧
    Real.sin (12.6024 * Real.pi / 180) ≤ 0.2183017656 := by
  obtain ⟨hl, hh⟩ := y1_bounds
  constructor
  · have hb := sin_ge_taylor (12.6024 * Real.pi / 180) 0.2199533278 0.2199533980
      (by norm_num) hl hh (by norm_num)
    nlinarith [hb]
  · have hb := sin_le_taylor (12.6024 * Real.pi / 180) 0.2199533278 0.2199533980
      (by norm_num) hl hh (by norm_num)
    nlinarith [hb]

/-- Rational bounds for half the second latitude in radians. -/
theorem y2_bounds :
    (0.2216567688 : ℝ) ≤ 12.7 * Real.pi / 180 ∧
    (12.7 : ℝ) * Real.pi / 180 ≤ 0.2216568395 := by
  have h1 := Real.pi_gt_d6
  have h2 := Real.pi_lt_d6
  constructor <;> nlinarith

/-- Rational bounds for the sine of half the second latitude. -/
theorem sin_y2_bounds :
    (0.2197159784 : ℝ) ≤ Real.sin (12.7 * Real.pi / 180) ∧
    Real.sin (12.7 * Real.pi / 180) ≤ 0.2199675019 := by
  obtain ⟨hl, hh⟩ := y2_bounds
  constructor
  · have hb := sin_ge_taylor (12.7 * Real.pi / 180) 0.2216567688 0.2216568395
      (by norm_num) hl hh (by norm_num)
    nlinarith [hb]
  · have hb := sin_le_taylor (12.7 * Real.pi / 180) 0.2216567688 0.2216568395
      (by norm_num) hl hh (by norm_num)
    nlinarith [hb]

/-- Double-angle identity in the sin-squared form. -/
theorem cos_double_sin_sq (y : ℝ) : Real.cos (2*y) = 1 - 2 * Real.sin y ^ 2 := by
  rw [Real.cos_two_mul']
  nlinarith [Real.sin_sq_add_cos_sq y]

/-- Rational bounds for the cosine of the first latitude. -/
theorem cos_p1_bounds :
    (0.9046886782 : ℝ) ≤ Real.cos (25.2048 * Real.pi / 180) ∧
    Real.cos (25.2048 * Real.pi / 180) ≤ 0.9049015188 := by
  have hid : (25.2048:ℝ) * Real.pi / 180 = 2 * (12.6024 * Real.pi / 180) := by ring
  obtain ⟨hl, hh⟩ := sin_y1_bounds
  rw [hid, cos_double_sin_sq]
  constructor <;> nlinarith [hl, hh]

/-- Rational bounds for the cosine of the second latitude. -/
theorem cos_p2_bounds :
    (0.9032285962 : ℝ) ≤ Real.cos (25.4 * Real.pi / 180) ∧
    Real.cos (25.4 * Real.pi / 180) ≤ 0.9034497777 := by
  have hid : (25.4:ℝ) * Real.pi / 180 = 2 * (12.7 * Real.pi / 180) := by ring
  obtain ⟨hl, hh⟩ := sin_y2_bounds
  rw [hid, cos_double_sin_sq]
  constructor <;> nlinarith [hl, hh]

/-- Rational bounds for the haversine intermediate value `a` of the spec
example. -/
theorem a_value_bounds :
    (0.0000061707417 : ℝ) ≤
      Real.sin (0.0976 * Real.pi / 180) ^ 2 +
        Real.cos (25.2048 * Real.pi / 180) * Real.cos (25.4 * Real.pi / 180) *
          Real.sin (0.1146 * Real.pi / 180) ^ 2 ∧
    Real.sin (0.0976 * Real.pi / 180) ^ 2 +
        Real.cos (25.2048 * Real.pi / 180) * Real.cos (25.4 * Real.pi / 180) *
          Real.sin (0.1146 * Real.pi / 180) ^ 2 ≤ 0.0000061723218 := by
  obtain ⟨hs1l, hs1h⟩ := sin_x1_bounds
  obtain ⟨hs2l, hs2h⟩ := sin_x2_bounds
  obtain ⟨hc1l, hc1h⟩ := cos_p1_bounds
  obtain ⟨hc2l, hc2h⟩ := cos_p2_bounds
  have hc1nn : (0 : ℝ) ≤ Real.cos (25.2048 * Real.pi / 180) :=
    le_trans (by norm_num) hc1l
  have hc2nn : (0 : ℝ) ≤ Real.cos (25.4 * Real.pi / 180) :=
    le_trans (by norm_num) hc2l
  have hs1nn : (0 : ℝ) ≤ Real.sin (0.0976 * Real.pi / 180) :=
    le_trans (by norm_num) hs1l
  have hs2nn : (0 : ℝ) ≤ Real.sin (0.1146 * Real.pi / 180) :=
    le_trans (by norm_num) hs2l
  have hc12l : (0.9046886782 : ℝ) * 0.9032285962 ≤
      Real.cos (25.2048 * Real.pi / 180) * Real.cos (25.4 * Real.pi / 180) :=
    mul_le_mul hc1l hc2l (by norm_num) hc1nn
  have hc12h : Real.cos (25.2048 * Real.pi / 180) * Real.cos (25.4 * Real.pi / 180) ≤
      (0.9049015188 : ℝ) * 0.9034497777 :=
    mul_le_mul hc1h hc2h hc2nn (by norm_num)
  have hs1sql : (0.0017034400 : ℝ) ^ 2 ≤ Real.sin (0.0976 * Real.pi / 180) ^ 2 :=
    pow_le_pow_left₀ (by norm_num) hs1l 2
  have hs1sqh : Real.sin (0.0976 * Real.pi / 180) ^ 2 ≤ (0.0017034408 : ℝ) ^ 2 :=
    pow_le_pow_left₀ hs1nn hs1h 2
  have hs2sql : (0.0020001455 : ℝ) ^ 2 ≤ Real.sin (0.1146 * Real.pi / 180) ^ 2 :=
    pow_le_pow_left₀ (by norm_num) hs2l 2
  have hs2sqh : Real.sin (0.1146 * Real.pi / 180) ^ 2 ≤ (0.0020001463 : ℝ) ^ 2 :=
    pow_le_pow_left₀ hs2nn hs2h 2
  have ht2l : ((0.9046886782 : ℝ) * 0.9032285962) * ((0.0020001455 : ℝ) ^ 2) ≤
      Real.cos (25.2048 * Real.pi / 180) * Real.cos (25.4 * Real.pi / 180) *
        Real.sin (0.1146 * Real.pi / 180) ^ 2 :=
    mul_le_mul hc12l hs2sql (by norm_num) (mul_nonneg hc1nn hc2nn)
  have ht2h : Real.cos (25.2048 * Real.pi / 180) * Real.cos (25.4 * Real.pi / 180) *
        Real.sin (0.1146 * Real.pi / 180) ^ 2 ≤
      ((0.9049015188 : ℝ) * 0.9034497777) * ((0.0020001463 : ℝ) ^ 2) :=
    mul_le_mul hc12h hs2sqh (sq_nonneg _) (by norm_num)
  constructor
  · have hnum : (0.0000061707417 : ℝ) ≤
        (0.0017034400 : ℝ) ^ 2 + ((0.9046886782 : ℝ) * 0.9032285962) * ((0.0020001455 : ℝ) ^ 2) := by
      norm_num
    linarith
  · have hnum : (0.0017034408 : ℝ) ^ 2 +
        ((0.9049015188 : ℝ) * 0.9034497777) * ((0.0020001463 : ℝ) ^ 2) ≤ 0.0000061723218 := by
      norm_num
    linarith

/-- Rational bounds for the square root of `a`. -/
theorem sqrt_a_bounds :
    (0.00248409 : ℝ) ≤ Real.sqrt
      (Real.sin (0.0976 * Real.pi / 180) ^ 2 +
        Real.cos (25.2048 * Real.pi / 180) * Real.cos (25.4 * Real.pi / 180) *
          Real.sin (0.1146 * Real.pi / 180) ^ 2) ∧
    Real.sqrt
      (Real.sin (0.0976 * Real.pi / 180) ^ 2 +
        Real.cos (25.2048 * Real.pi / 180) * Real.cos (25.4 * Real.pi / 180) *
          Real.sin (0.1146 * Real.pi / 180) ^ 2) ≤ 0.00248443 := by
  obtain ⟨hal, hah⟩ := a_value_bounds
  constructor
  · apply Real.le_sqrt_of_sq_le
    have : (0.00248409 : ℝ) ^ 2 ≤ 0.0000061707417 := by norm_num
    linarith
  · rw [Real.sqrt_le_left (by norm_num : (0:ℝ) ≤ 0.00248443)]
    have : (0.0000061723218 : ℝ) ≤ (0.00248443 : ℝ) ^ 2 := by norm_num
    linarith

/-- Rational bounds for the arcsine of the square root of `a`. -/
theorem arcsin_sqrt_a_bounds :
    (0.00248409 : ℝ) ≤ Real.arcsin (Real.sqrt
      (Real.sin (0.0976 * Real.pi / 180) ^ 2 +
        Real.cos (25.2048 * Real.pi / 180) * Real.cos (25.4 * Real.pi / 180) *
          Real.sin (0.1146 * Real.pi / 180) ^ 2)) ∧
    Real.arcsin (Real.sqrt
      (Real.sin (0.0976 * Real.pi / 180) ^ 2 +
        Real.cos (25.2048 * Real.pi / 180) * Real.cos (25.4 * Real.pi / 180) *
          Real.sin (0.1146 * Real.pi / 180) ^ 2)) ≤ 0.00248448 := by
  obtain ⟨hul, huh⟩ := sqrt_a_bounds
  set u := Real.sqrt
      (Real.sin (0.0976 * Real.pi / 180) ^ 2 +
        Real.cos (25.2048 * Real.pi / 180) * Real.cos (25.4 * Real.pi / 180) *
          Real.sin (0.1146 * Real.pi / 180) ^ 2) with hudef
  have hu0 : (0:ℝ) ≤ u := Real.sqrt_nonneg _
  have hu1 : u ≤ 1 := by linarith
  have hsin : Real.sin (Real.arcsin u) = u := Real.sin_arcsin (by linarith) hu1
  have ht0 : 0 ≤ Real.arcsin u := Real.arcsin_nonneg.2 hu0
  have htpi : Real.arcsin u ≤ Real.pi / 2 := Real.arcsin_le_pi_div_two u
  constructor
  · have hle : Real.sin (Real.arcsin u) ≤ Real.arcsin u := Real.sin_le ht0
    linarith
  · have ht001 : Real.arcsin u ≤ 0.01 := by
      by_contra hgt
      push_neg at hgt
      have h360 : (0.01 : ℝ) ∈ Set.Icc (-(Real.pi/2)) (Real.pi/2) := by
        constructor
        · have := Real.pi_gt_d6
          linarith
        · have := Real.pi_gt_d6
          linarith
      have htmem : Real.arcsin u ∈ Set.Icc (-(Real.pi/2)) (Real.pi/2) := by
        constructor
        · linarith
        · exact htpi
      have hmono := Real.strictMonoOn_sin h360 htmem hgt
      have hs001 : (0.0099998 : ℝ) ≤ Real.sin 0.01 := by
        have hb := sin_ge_taylor 0.01 0.01 0.01 (by norm_num) le_rfl le_rfl (by norm_num)
        nlinarith [hb]
      rw [hsin] at hmono
      linarith
    have hta : |Real.arcsin u| ≤ 1 := by
      rw [abs_of_nonneg ht0]
      linarith
    have hb := Real.sin_bound hta
    rw [abs_of_nonneg ht0, hsin] at hb
    have hb1 := abs_le.1 hb
    have ht3 : Real.arcsin u ^ 3 ≤ 0.0001 * Real.arcsin u := by
      have h2 : Real.arcsin u ^ 2 ≤ 0.0001 := by nlinarith
      nlinarith [ht0]
    have ht4 : Real.arcsin u ^ 4 ≤ 0.000001 * Real.arcsin u := by
      have h3 : Real.arcsin u ^ 3 ≤ 0.000001 := by nlinarith
      nlinarith [ht0]
    linarith [hb1.1, hb1.2]

/-- The haversine of the spec example in the canonical argument form. -/
theorem haversine_AB_eq :
    haversine_nm 25.2048 55.2708 25.4 55.5 =
      2 * Real.arcsin (Real.sqrt
        (Real.sin (0.0976 * Real.pi / 180) ^ 2 +
          Real.cos (25.2048 * Real.pi / 180) * Real.cos (25.4 * Real.pi / 180) *
            Real.sin (0.1146 * Real.pi / 180) ^ 2)) * 3440.065 := by
  unfold haversine_nm
  dsimp only
  push_cast
  have e1 : ((25.4:ℝ) * Real.pi / 180 - 25.2048 * Real.pi / 180) / 2 =
      0.0976 * Real.pi / 180 := by
    ring
  have e2 : ((55.5:ℝ) * Real.pi / 180 - 55.2708 * Real.pi / 180) / 2 =
      0.1146 * Real.pi / 180 := by
    ring
  rw [e1, e2]

/-- The implemented haversine distance of the spec example lies strictly
between 17.09 and 17.10 nautical miles. -/
theorem haversine_AB_bounds :
    (17.09 : ℝ) < haversine_nm 25.2048 55.2708 25.4 55.5 ∧
    haversine_nm 25.2048 55.2708 25.4 55.5 < 17.10 := by
  rw [haversine_AB_eq]
  obtain ⟨htl, hth⟩ := arcsin_sqrt_a_bounds
  constructor <;> nlinarith

/-- C7 (amended): for A = (25.2048, 55.2708) at t0 and B = (25.4, 55.5) at
t0 + 2h, distance_to(A, B) is approximately 17.09 nautical miles (strictly
between 17.09 and 17.10) under the implemented haversine — not 14.5 — and
get_voyage_statistics over exactly these two positions reports
duration_hours = 2.0. -/
theorem distance_and_duration_example :
    ((17.09 : ℝ) < posA7.distance_to posB7 ∧ posA7.distance_to posB7 < 17.10) ∧
    stats_duration_hours (get_voyage_statistics store7 voy7) = 2 := by
  constructor
  · exact haversine_AB_bounds
  · have hq : voyage_positions store7 voy7.id = [posA7, posB7] := by
      simp [voyage_positions, store7, voy7, posA7, posB7]
    have hfl : ⌊(200:ℚ) + 1/2⌋ = 200 := floorQ_eval _ _ (by norm_num) (by norm_num)
    simp only [get_voyage_statistics, stats_duration_hours, hq]
    norm_num [posA7, posB7, minQ, maxQ, roundQ2, min_def, max_def, round_eq, hfl]

/-- C7 counterexample: the example distance is NOT approximately 14.5
nautical miles — it misses 14.5 by more than one nautical mile (the
implemented value exceeds 17.09). -/
theorem distance_example_not_14_5 :
    ¬ (|posA7.distance_to posB7 - 14.5| ≤ 1) := by
  intro hc
  have hb : (17.09:ℝ) < posA7.distance_to posB7 := haversine_AB_bounds.1
  have habs := abs_le.1 hc
  linarith [habs.2]
